import Mathlib

/-!
Shallow embedding of the progress/achievement aggregation core of the
reading-adventures application, translated from
`src/client/src/components/Achievements.tsx` and the `ProgressDashboard`
component, together with proofs about the aggregation functions, the
achievement rule catalog and the display sort.

Numeric fields that are JavaScript `number`s carrying scores or
percentages are modelled as `ℚ`; fields declared integral in the schema
(`words_read`, `session_duration_seconds`) are modelled as `ℤ`; counts
obtained as list lengths are `ℕ`.
-/

namespace ReadingAdventures

/-- Status of a `UserProgress` row: one of not_started / in_progress / completed. -/
inductive ProgressStatus where
  | not_started
  | in_progress
  | completed
deriving DecidableEq, Repr

/-- Difficulty level, both a user attribute and a content attribute. -/
inductive Difficulty where
  | beginner
  | intermediate
  | advanced
deriving DecidableEq, Repr

/-- The fields of a `Content` row that the aggregation core reads. -/
structure ContentRec where
  id : ℤ
  difficulty : Difficulty
deriving DecidableEq, Repr

/-- The fields of a `User` row that the aggregation core reads. -/
structure UserRec where
  level : Difficulty
deriving DecidableEq, Repr

/-- The fields of a `UserProgress` row that the aggregation core reads. -/
structure UserProgressRec where
  content_id : ℤ
  status : ProgressStatus
  completion_percentage : ℚ
deriving DecidableEq, Repr

/-- The fields of a `QuizAttempt` row that the aggregation core reads. -/
structure QuizAttemptRec where
  score : ℚ
deriving DecidableEq, Repr

/-- The fields of a `ReadingSession` row that the aggregation core reads. -/
structure ReadingSessionRec where
  words_read : ℤ
  session_duration_seconds : ℤ
deriving DecidableEq, Repr

/-- Achievement category, from the `Achievement` interface in `Achievements.tsx`. -/
inductive Category where
  | reading
  | progress
  | quiz
  | streak
deriving DecidableEq, Repr

/-- The category's string name, as compared by `localeCompare` in the sort. -/
def categoryName : Category → String
  | .reading => "reading"
  | .progress => "progress"
  | .quiz => "quiz"
  | .streak => "streak"

/-- One achievement record as built by the `achievements` array in
`Achievements.tsx`: id, display strings, unlock flag, optional
progress/maxProgress pair, and category. -/
structure Achievement where
  id : String
  title : String
  description : String
  emoji : String
  unlocked : Bool
  progress : Option ℚ := none
  maxProgress : Option ℚ := none
  category : Category
deriving DecidableEq, Repr

/-- Embeds `completedStories` from `Achievements.tsx`:
`userProgress.filter(p => p.status === 'completed').length`. -/
def completedStories (userProgress : List UserProgressRec) : ℕ :=
  (userProgress.filter fun p => decide (p.status = ProgressStatus.completed)).length

/-- Embeds `totalWordsRead`: `readingSessions.reduce((sum, s) => sum + s.words_read, 0)`. -/
def totalWordsRead (readingSessions : List ReadingSessionRec) : ℤ :=
  readingSessions.foldl (fun sum session => sum + session.words_read) 0

/-- Embeds `totalReadingTime`: `readingSessions.reduce((sum, s) => sum + s.session_duration_seconds, 0)`. -/
def totalReadingTime (readingSessions : List ReadingSessionRec) : ℤ :=
  readingSessions.foldl (fun sum session => sum + session.session_duration_seconds) 0

/-- Embeds `averageQuizScore`:
`quizAttempts.length > 0 ? quizAttempts.reduce((sum, a) => sum + a.score, 0) / quizAttempts.length : 0`. -/
def averageQuizScore (quizAttempts : List QuizAttemptRec) : ℚ :=
  if 0 < quizAttempts.length then
    (quizAttempts.foldl (fun sum attempt => sum + attempt.score) 0) / (quizAttempts.length : ℚ)
  else 0

/-- Embeds `perfectQuizzes`: `quizAttempts.filter(a => a.score === 100).length`. -/
def perfectQuizzes (quizAttempts : List QuizAttemptRec) : ℕ :=
  (quizAttempts.filter fun attempt => decide (attempt.score = 100)).length

/-- Embeds `completedContent` from `ProgressDashboard`: same filter as `completedStories`. -/
def completedContent (userProgress : List UserProgressRec) : ℕ :=
  (userProgress.filter fun p => decide (p.status = ProgressStatus.completed)).length

/-- Embeds `totalContent` from `ProgressDashboard`:
`content.filter(c => c.difficulty === user.level).length`. -/
def totalContent (content : List ContentRec) (user : UserRec) : ℕ :=
  (content.filter fun c => decide (c.difficulty = user.level)).length

/-- Embeds `overallProgress` from `ProgressDashboard`:
`totalContent > 0 ? (completedContent / totalContent) * 100 : 0`. -/
def overallProgress (user : UserRec) (content : List ContentRec)
    (userProgress : List UserProgressRec) : ℚ :=
  if 0 < totalContent content user then
    ((completedContent userProgress : ℚ) / (totalContent content user : ℚ)) * 100
  else 0

/-- Embeds `getContentProgress` from `ProgressDashboard`:
`const progress = userProgress.find(p => p.content_id === contentId);`
`return progress ? progress.completion_percentage : 0;`. -/
def getContentProgress (userProgress : List UserProgressRec) (contentId : ℤ) : ℚ :=
  match userProgress.find? (fun p => decide (p.content_id = contentId)) with
  | some progress => progress.completion_percentage
  | none => 0

/-- The fixed 14-entry achievement catalog from `Achievements.tsx`, evaluated
against the aggregates of the given input collections, in definition order. -/
def achievements (userProgress : List UserProgressRec)
    (quizAttempts : List QuizAttemptRec)
    (readingSessions : List ReadingSessionRec) : List Achievement :=
  [ { id := "first_story", title := "First Story",
      description := "Complete your first story!", emoji := "📖",
      unlocked := decide (1 ≤ completedStories userProgress),
      category := .reading },
    { id := "story_master", title := "Story Master",
      description := "Complete 5 stories", emoji := "📚",
      unlocked := decide (5 ≤ completedStories userProgress),
      progress := some (min ((completedStories userProgress : ℚ)) 5),
      maxProgress := some 5,
      category := .reading },
    { id := "reading_champion", title := "Reading Champion",
      description := "Complete 10 stories", emoji := "🏆",
      unlocked := decide (10 ≤ completedStories userProgress),
      progress := some (min ((completedStories userProgress : ℚ)) 10),
      maxProgress := some 10,
      category := .reading },
    { id := "word_explorer", title := "Word Explorer",
      description := "Read 100 words", emoji := "🔤",
      unlocked := decide (100 ≤ totalWordsRead readingSessions),
      progress := some (min ((totalWordsRead readingSessions : ℚ)) 100),
      maxProgress := some 100,
      category := .reading },
    { id := "word_collector", title := "Word Collector",
      description := "Read 500 words", emoji := "📝",
      unlocked := decide (500 ≤ totalWordsRead readingSessions),
      progress := some (min ((totalWordsRead readingSessions : ℚ)) 500),
      maxProgress := some 500,
      category := .reading },
    { id := "word_master", title := "Word Master",
      description := "Read 1,000 words", emoji := "🌟",
      unlocked := decide (1000 ≤ totalWordsRead readingSessions),
      progress := some (min ((totalWordsRead readingSessions : ℚ)) 1000),
      maxProgress := some 1000,
      category := .reading },
    { id := "quick_reader", title := "Quick Reader",
      description := "Read for 30 minutes total", emoji := "⚡",
      unlocked := decide (1800 ≤ totalReadingTime readingSessions),
      progress := some (min ((totalReadingTime readingSessions : ℚ)) 1800),
      maxProgress := some 1800,
      category := .reading },
    { id := "dedicated_reader", title := "Dedicated Reader",
      description := "Read for 2 hours total", emoji := "💪",
      unlocked := decide (7200 ≤ totalReadingTime readingSessions),
      progress := some (min ((totalReadingTime readingSessions : ℚ)) 7200),
      maxProgress := some 7200,
      category := .reading },
    { id := "quiz_rookie", title := "Quiz Rookie",
      description := "Complete your first quiz", emoji := "🧩",
      unlocked := decide (1 ≤ quizAttempts.length),
      category := .quiz },
    { id := "quiz_expert", title := "Quiz Expert",
      description := "Average 80% on quizzes", emoji := "🎯",
      unlocked := decide (80 ≤ averageQuizScore quizAttempts),
      category := .quiz },
    { id := "perfect_score", title := "Perfect Score",
      description := "Get 100% on a quiz", emoji := "💯",
      unlocked := decide (1 ≤ perfectQuizzes quizAttempts),
      category := .quiz },
    { id := "quiz_master", title := "Quiz Master",
      description := "Get 3 perfect quiz scores", emoji := "🏅",
      unlocked := decide (3 ≤ perfectQuizzes quizAttempts),
      progress := some (min ((perfectQuizzes quizAttempts : ℚ)) 3),
      maxProgress := some 3,
      category := .quiz },
    { id := "getting_started", title := "Getting Started",
      description := "Start your reading journey!", emoji := "🚀",
      unlocked := decide (1 ≤ readingSessions.length),
      category := .progress },
    { id := "level_up_ready", title := "Level Up Ready",
      description := "You\x27re ready for the next level!", emoji := "⬆️",
      unlocked := decide (8 ≤ completedStories userProgress) &&
        decide (75 ≤ averageQuizScore quizAttempts),
      category := .progress } ]

/-- The boolean "comes no later than" relation induced by the sort comparator
`(a, b) => { if (a.unlocked !== b.unlocked) return a.unlocked ? -1 : 1;`
`return a.category.localeCompare(b.category); }`:
`achLE a b` holds exactly when the comparator returns a value `≤ 0` on `(a, b)`. -/
def achLE (a b : Achievement) : Bool :=
  if a.unlocked != b.unlocked then a.unlocked
  else decide (categoryName a.category ≤ categoryName b.category)

/-- Embeds `sortedAchievements`: the catalog reordered by the comparator above.
JavaScript `Array.prototype.sort` is required to be stable, which `mergeSort`
models. -/
def sortedAchievements (userProgress : List UserProgressRec)
    (quizAttempts : List QuizAttemptRec)
    (readingSessions : List ReadingSessionRec) : List Achievement :=
  (achievements userProgress quizAttempts readingSessions).mergeSort achLE

/-- Embeds `unlockedCount`: `achievements.filter(a => a.unlocked).length`. -/
def unlockedCount (userProgress : List UserProgressRec)
    (quizAttempts : List QuizAttemptRec)
    (readingSessions : List ReadingSessionRec) : ℕ :=
  ((achievements userProgress quizAttempts readingSessions).filter
    fun a => a.unlocked).length

/-- Lookup of one achievement's unlock flag by id in the evaluated catalog. -/
def unlockedOf (userProgress : List UserProgressRec)
    (quizAttempts : List QuizAttemptRec)
    (readingSessions : List ReadingSessionRec) (i : String) : Option Bool :=
  ((achievements userProgress quizAttempts readingSessions).find?
    (fun a => a.id == i)).map (fun a => a.unlocked)

/-- The sort key underlying `achLE`: unlocked rules rank 0, locked rules rank
1, then the category name, ordered lexicographically. -/
def achKey (a : Achievement) : ℕ ×ₗ String :=
  toLex (if a.unlocked then 0 else 1, categoryName a.category)

/-- Fixture: eight completed progress rows (scenario 4, first half). -/
def progressEight : List UserProgressRec :=
  [⟨1, .completed, 100⟩, ⟨2, .completed, 100⟩, ⟨3, .completed, 100⟩,
   ⟨4, .completed, 100⟩, ⟨5, .completed, 100⟩, ⟨6, .completed, 100⟩,
   ⟨7, .completed, 100⟩, ⟨8, .completed, 100⟩]

/-- Fixture: seven completed progress rows (scenario 4, second half). -/
def progressSeven : List UserProgressRec :=
  [⟨1, .completed, 100⟩, ⟨2, .completed, 100⟩, ⟨3, .completed, 100⟩,
   ⟨4, .completed, 100⟩, ⟨5, .completed, 100⟩, ⟨6, .completed, 100⟩,
   ⟨7, .completed, 100⟩]

/-- Fixture: five completed progress rows. -/
def progressFive : List UserProgressRec :=
  [⟨1, .completed, 100⟩, ⟨2, .completed, 100⟩, ⟨3, .completed, 100⟩,
   ⟨4, .completed, 100⟩, ⟨5, .completed, 100⟩]

/-- Fixture: one quiz attempt with score 75. -/
def attemptsScore75 : List QuizAttemptRec := [⟨75⟩]

/-- Fixture: one quiz attempt with score 90. -/
def attemptsScore90 : List QuizAttemptRec := [⟨90⟩]

/-- Fixture: a beginner-level user. -/
def userBeginner : UserRec := ⟨.beginner⟩

/-- Fixture: three progress rows, two of them for content id 2. -/
def progressMixed : List UserProgressRec :=
  [⟨1, .not_started, 20⟩, ⟨2, .completed, 50⟩, ⟨2, .in_progress, 70⟩]

/-- Fixture: a single beginner content row with id 1. -/
def contentOne : List ContentRec := [⟨1, .beginner⟩]

/-- Fixture: a completed progress row whose content id 99 exists in no catalog. -/
def danglingRow : UserProgressRec := ⟨99, .completed, 100⟩

/-- Fixture: one reading session of 150 words over 900 seconds. -/
def sessionOne : List ReadingSessionRec := [⟨150, 900⟩]

/-- The `first_story` record as evaluated on all-empty inputs (locked). -/
def firstStoryLocked : Achievement :=
  { id := "first_story", title := "First Story",
    description := "Complete your first story!", emoji := "📖",
    unlocked := false,
    category := .reading }

/-- The `story_master` record as evaluated on all-empty inputs (locked). -/
def storyMasterLocked : Achievement :=
  { id := "story_master", title := "Story Master",
    description := "Complete 5 stories", emoji := "📚",
    unlocked := false,
    progress := some (min ((completedStories [] : ℚ)) 5),
    maxProgress := some 5,
    category := .reading }

/-- Folding `+` of a projection over a list from an initial accumulator is
that accumulator plus the sum of the projected values. -/
lemma foldl_add_proj {α M : Type} [AddCommMonoid M] (g : α → M) :
    ∀ (l : List α) (c : M), l.foldl (fun sum x => sum + g x) c = c + (l.map g).sum
  | [], c => by simp
  | x :: l, c => by
    rw [List.foldl_cons, foldl_add_proj g l (c + g x)]
    simp [add_assoc]

/-- The words-read total is the sum of the sessions' `words_read` fields. -/
lemma totalWordsRead_eq_sum (readingSessions : List ReadingSessionRec) :
    totalWordsRead readingSessions
      = (readingSessions.map (fun s => s.words_read)).sum := by
  rw [totalWordsRead, foldl_add_proj, zero_add]

/-- The reading-time total is the sum of the sessions' duration fields. -/
lemma totalReadingTime_eq_sum (readingSessions : List ReadingSessionRec) :
    totalReadingTime readingSessions
      = (readingSessions.map (fun s => s.session_duration_seconds)).sum := by
  rw [totalReadingTime, foldl_add_proj, zero_add]

/-- The score accumulator inside `averageQuizScore` is the sum of the scores. -/
lemma quizScoreFold_eq_sum (quizAttempts : List QuizAttemptRec) :
    quizAttempts.foldl (fun sum attempt => sum + attempt.score) 0
      = (quizAttempts.map (fun a => a.score)).sum := by
  rw [foldl_add_proj, zero_add]

/-- Clamped progress built from a count is between 0 and its cap. -/
lemma min_cast_nat_bounds (n : ℕ) (k : ℚ) (hk : 0 ≤ k) :
    0 ≤ min ((n : ℚ)) k ∧ min ((n : ℚ)) k ≤ k :=
  ⟨le_min (Nat.cast_nonneg n) hk, min_le_right _ _⟩

/-- Clamped progress built from a non-negative integer metric is between 0 and
its cap. -/
lemma min_cast_int_bounds {x : ℤ} (hx : 0 ≤ x) (k : ℚ) (hk : 0 ≤ k) :
    0 ≤ min ((x : ℚ)) k ∧ min ((x : ℚ)) k ≤ k :=
  ⟨le_min (by exact_mod_cast hx) hk, min_le_right _ _⟩

/-- The comparator relation `achLE` is transitive. -/
lemma achLE_trans : ∀ (a b c : Achievement),
    achLE a b = true → achLE b c = true → achLE a c = true := by
  intro a b c h1 h2
  simp only [achLE] at h1 h2 ⊢
  cases ha : a.unlocked <;> cases hb : b.unlocked <;> cases hc : c.unlocked <;>
    simp_all [decide_eq_true_eq] <;>
    exact le_trans (by assumption) (by assumption)

/-- The comparator relation `achLE` is total. -/
lemma achLE_total : ∀ (a b : Achievement), (achLE a b || achLE b a) = true := by
  intro a b
  simp only [achLE]
  cases ha : a.unlocked <;> cases hb : b.unlocked <;>
    simp_all [decide_eq_true_eq] <;>
    exact le_total _ _

/-- Two achievements with the same sort key compare as less-or-equal. -/
lemma achKey_eq_achLE {a b : Achievement} (h : achKey a = achKey b) :
    achLE a b = true := by
  have h' : ((if a.unlocked then 0 else 1 : ℕ), categoryName a.category)
      = ((if b.unlocked then 0 else 1 : ℕ), categoryName b.category) :=
    congrArg (fun z => ofLex z) h
  obtain ⟨h1, h2⟩ := Prod.mk.inj h'
  have hu : a.unlocked = b.unlocked := by
    cases hau : a.unlocked <;> cases hbu : b.unlocked <;> simp_all
  simp [achLE, hu, h2]

/-- C2: both divisions are guarded. With zero eligible content the overall
progress percentage is 0 whatever the completed count; with eligible content
present it is `(completedCount / eligibleContentCount) * 100`. With no quiz
attempts the average score is 0; with attempts present it is the sum of the
scores divided by the number of attempts. -/
theorem division_guards (user : UserRec) (content : List ContentRec)
    (userProgress : List UserProgressRec) (quizAttempts : List QuizAttemptRec) :
    (totalContent content user = 0 → overallProgress user content userProgress = 0) ∧
    (0 < totalContent content user →
      overallProgress user content userProgress
        = ((completedContent userProgress : ℚ) / (totalContent content user : ℚ)) * 100) ∧
    (quizAttempts = [] → averageQuizScore quizAttempts = 0) ∧
    (quizAttempts ≠ [] →
      averageQuizScore quizAttempts
        = ((quizAttempts.map (fun a => a.score)).sum) / (quizAttempts.length : ℚ)) := by
  refine ⟨fun h0 => ?_, fun hpos => ?_, fun hnil => ?_, fun hne => ?_⟩
  · rw [overallProgress, if_neg]
    omega
  · rw [overallProgress, if_pos hpos]
  · subst hnil
    rfl
  · rw [averageQuizScore, if_pos (List.length_pos.mpr hne), quizScoreFold_eq_sum]

/-- Witness for `division_guards` at concrete inputs: an empty catalog gives
0% even with a completed row, and an empty attempt list gives average 0. -/
theorem division_guards_witness :
    overallProgress userBeginner [] progressEight = 0 ∧ averageQuizScore [] = 0 :=
  ⟨(division_guards userBeginner [] progressEight []).1 rfl,
   (division_guards userBeginner [] progressEight []).2.2.1 rfl⟩

/-- C3: on all-empty input collections every aggregate is 0 and the
`first_story`, `quiz_rookie` and `getting_started` achievements are locked. -/
theorem empty_inputs_all_zero (user : UserRec) :
    overallProgress user [] [] = 0 ∧
    averageQuizScore [] = 0 ∧
    totalWordsRead [] = 0 ∧
    totalReadingTime [] = 0 ∧
    unlockedOf [] [] [] "first_story" = some false ∧
    unlockedOf [] [] [] "quiz_rookie" = some false ∧
    unlockedOf [] [] [] "getting_started" = some false := by
  refine ⟨?_, rfl, rfl, rfl, rfl, rfl, rfl⟩
  rw [overallProgress, if_neg]
  simp [totalContent]

/-- C6: the perfect-quiz count tests scores for exact equality with 100: each
attempt contributes exactly when its score is 100, a 99.99 score contributes
nothing, and an exact 100 contributes one. -/
theorem perfect_quiz_exact_equality :
    (∀ (x : QuizAttemptRec) (quizAttempts : List QuizAttemptRec),
      perfectQuizzes (x :: quizAttempts)
        = (if x.score = 100 then 1 else 0) + perfectQuizzes quizAttempts) ∧
    perfectQuizzes [⟨9999 / 100⟩] = 0 ∧
    perfectQuizzes [⟨100⟩, ⟨9999 / 100⟩] = 1 := by
  refine ⟨fun x quizAttempts => ?_, ?_, ?_⟩
  · rw [perfectQuizzes, perfectQuizzes, List.filter_cons]
    by_cases h : x.score = 100 <;> simp [h, Nat.add_comm]
  · norm_num [perfectQuizzes, List.filter_cons]
  · norm_num [perfectQuizzes, List.filter_cons]

/-- C9: the per-content progress lookup is total. When the records matching
`contentId` start with `r` (so `r` is the first match in input order), the
lookup returns `r.completion_percentage`; when no record matches it returns 0
rather than failing. -/
theorem progress_lookup_total :
    ∀ (userProgress : List UserProgressRec) (contentId : ℤ),
    (∀ (r : UserProgressRec) (l : List UserProgressRec),
      userProgress.filter (fun p => decide (p.content_id = contentId)) = r :: l →
      getContentProgress userProgress contentId = r.completion_percentage) ∧
    ((∀ r ∈ userProgress, r.content_id ≠ contentId) →
      getContentProgress userProgress contentId = 0)
  | [], contentId => ⟨fun r l h => by simp at h, fun _ => rfl⟩
  | x :: up, contentId => by
    obtain ⟨ih1, ih2⟩ := progress_lookup_total up contentId
    by_cases hx : x.content_id = contentId
    · refine ⟨fun r l h => ?_, fun hall => ?_⟩
      · simp only [List.filter_cons, hx, decide_True, if_true] at h
        injection h with h1 h2
        subst h1
        simp [getContentProgress, List.find?_cons, hx]
      · exact absurd hx (hall x (List.mem_cons_self x up))
    · have hxd : decide (x.content_id = contentId) = false := by
        simpa using hx
      have hstep : getContentProgress (x :: up) contentId
          = getContentProgress up contentId := by
        simp only [getContentProgress, List.find?_cons, hxd]
      refine ⟨fun r l h => ?_, fun hall => ?_⟩
      · simp only [List.filter_cons, hxd, Bool.false_eq_true, if_false] at h
        rw [hstep]
        exact ih1 r l h
      · rw [hstep]
        exact ih2 (fun r hr => hall r (List.mem_cons_of_mem _ hr))

/-- Witness for `progress_lookup_total`: on `progressMixed` the lookup for
content id 2 returns the first matching row's 50, and the lookup for the
absent content id 5 returns 0. -/
theorem progress_lookup_total_witness :
    getContentProgress progressMixed 2 = 50 ∧ getContentProgress progressMixed 5 = 0 :=
  ⟨(progress_lookup_total progressMixed 2).1 ⟨2, .completed, 50⟩
      [⟨2, .in_progress, 70⟩] rfl,
   (progress_lookup_total progressMixed 5).2 (by decide)⟩

/-- C7: a progress row whose content id is absent from the catalog is still
counted by the completed-stories count when its status is completed (the count
needs no join with content), while every content-scoped lookup is unaffected
by the dangling row; nothing fails. -/
theorem dangling_reference_counted (content : List ContentRec)
    (rest : List UserProgressRec) (r : UserProgressRec)
    (hstatus : r.status = ProgressStatus.completed)
    (habsent : ∀ c ∈ content, c.id ≠ r.content_id) :
    completedStories (r :: rest) = completedStories rest + 1 ∧
    (∀ c ∈ content, getContentProgress (r :: rest) c.id = getContentProgress rest c.id) := by
  constructor
  · rw [completedStories, completedStories,
      List.filter_cons_of_pos (by simpa using hstatus)]
    simp
  · intro c hc
    have hne : ¬ (r.content_id = c.id) := fun h => habsent c hc h.symm
    have hned : decide (r.content_id = c.id) = false := by
      simpa using hne
    simp only [getContentProgress, List.find?_cons, hned]

/-- Witness for `dangling_reference_counted`: the dangling completed row with
content id 99 is counted, and the lookup for catalog content id 1 ignores it. -/
theorem dangling_reference_counted_witness :
    completedStories [danglingRow] = completedStories [] + 1 ∧
    getContentProgress [danglingRow] (1 : ℤ) = getContentProgress [] (1 : ℤ) :=
  ⟨(dangling_reference_counted contentOne [] danglingRow rfl (by decide)).1,
   (dangling_reference_counted contentOne [] danglingRow rfl (by decide)).2
      ⟨1, .beginner⟩ (List.mem_cons_self _ _)⟩

/-- C8: whenever the completed count is at most the eligible-content count,
the overall progress percentage lies in the closed interval from 0 to 100. -/
theorem overall_progress_bounded (user : UserRec) (content : List ContentRec)
    (userProgress : List UserProgressRec)
    (h : completedContent userProgress ≤ totalContent content user) :
    0 ≤ overallProgress user content userProgress ∧
    overallProgress user content userProgress ≤ 100 := by
  rw [overallProgress]
  by_cases hpos : 0 < totalContent content user
  · rw [if_pos hpos]
    have hE : (0 : ℚ) < (totalContent content user : ℚ) := by exact_mod_cast hpos
    have hC : (completedContent userProgress : ℚ) ≤ (totalContent content user : ℚ) := by
      exact_mod_cast h
    have hdiv : (completedContent userProgress : ℚ) / (totalContent content user : ℚ) ≤ 1 := by
      rw [div_le_one hE]
      exact hC
    constructor
    · positivity
    · have := mul_le_mul_of_nonneg_right hdiv (by norm_num : (0 : ℚ) ≤ 100)
      simpa using this
  · rw [if_neg hpos]
    norm_num

/-- Witness for `overall_progress_bounded`: one eligible content row and one
completed progress row satisfy the precondition and give a bounded percentage. -/
theorem overall_progress_bounded_witness :
    0 ≤ overallProgress userBeginner contentOne [⟨1, .completed, 100⟩] ∧
    overallProgress userBeginner contentOne [⟨1, .completed, 100⟩] ≤ 100 :=
  overall_progress_bounded userBeginner contentOne [⟨1, .completed, 100⟩] (by decide)

/-- C1: each of the 14 rules in the evaluated catalog is unlocked exactly when
its unlock condition from the rule table holds of the aggregates; moreover, on
a fixture with 8 completed rows and average score 75 the `level_up_ready` rule
is unlocked, and on a fixture with 7 completed rows and average score 90 it is
locked. -/
theorem achievement_unlock_table :
    (∀ (userProgress : List UserProgressRec) (quizAttempts : List QuizAttemptRec)
        (readingSessions : List ReadingSessionRec),
      (unlockedOf userProgress quizAttempts readingSessions "first_story" = some true
        ↔ 1 ≤ completedStories userProgress) ∧
      (unlockedOf userProgress quizAttempts readingSessions "story_master" = some true
        ↔ 5 ≤ completedStories userProgress) ∧
      (unlockedOf userProgress quizAttempts readingSessions "reading_champion" = some true
        ↔ 10 ≤ completedStories userProgress) ∧
      (unlockedOf userProgress quizAttempts readingSessions "word_explorer" = some true
        ↔ 100 ≤ totalWordsRead readingSessions) ∧
      (unlockedOf userProgress quizAttempts readingSessions "word_collector" = some true
        ↔ 500 ≤ totalWordsRead readingSessions) ∧
      (unlockedOf userProgress quizAttempts readingSessions "word_master" = some true
        ↔ 1000 ≤ totalWordsRead readingSessions) ∧
      (unlockedOf userProgress quizAttempts readingSessions "quick_reader" = some true
        ↔ 1800 ≤ totalReadingTime readingSessions) ∧
      (unlockedOf userProgress quizAttempts readingSessions "dedicated_reader" = some true
        ↔ 7200 ≤ totalReadingTime readingSessions) ∧
      (unlockedOf userProgress quizAttempts readingSessions "quiz_rookie" = some true
        ↔ 1 ≤ quizAttempts.length) ∧
      (unlockedOf userProgress quizAttempts readingSessions "quiz_expert" = some true
        ↔ 80 ≤ averageQuizScore quizAttempts) ∧
      (unlockedOf userProgress quizAttempts readingSessions "perfect_score" = some true
        ↔ 1 ≤ perfectQuizzes quizAttempts) ∧
      (unlockedOf userProgress quizAttempts readingSessions "quiz_master" = some true
        ↔ 3 ≤ perfectQuizzes quizAttempts) ∧
      (unlockedOf userProgress quizAttempts readingSessions "getting_started" = some true
        ↔ 1 ≤ readingSessions.length) ∧
      (unlockedOf userProgress quizAttempts readingSessions "level_up_ready" = some true
        ↔ (8 ≤ completedStories userProgress ∧ 75 ≤ averageQuizScore quizAttempts))) ∧
    unlockedOf progressEight attemptsScore75 [] "level_up_ready" = some true ∧
    unlockedOf progressSeven attemptsScore90 [] "level_up_ready" = some false := by
  refine ⟨fun userProgress quizAttempts readingSessions => ?_, ?_, ?_⟩
  · refine ⟨?_, ?_, ?_, ?_, ?_, ?_, ?_, ?_, ?_, ?_, ?_, ?_, ?_, ?_⟩ <;>
      simp [unlockedOf, achievements, List.find?]
  · have h : unlockedOf progressEight attemptsScore75 [] "level_up_ready"
        = some (decide (8 ≤ completedStories progressEight) &&
            decide (75 ≤ averageQuizScore attemptsScore75)) := rfl
    rw [h]
    norm_num [progressEight, attemptsScore75, completedStories, averageQuizScore]
  · have h : unlockedOf progressSeven attemptsScore90 [] "level_up_ready"
        = some (decide (8 ≤ completedStories progressSeven) &&
            decide (75 ≤ averageQuizScore attemptsScore90)) := rfl
    rw [h]
    norm_num [progressSeven, attemptsScore90, completedStories, averageQuizScore]

set_option maxHeartbeats 1000000 in
/-- C4: every progress/max pair in the catalog reports `min(raw_metric, max)`
as its progress (second conjunct, listing all fourteen id/progress/max rows),
and consequently — whenever the session metrics are non-negative — every
reported progress lies between 0 and its cap, even when the raw metric
exceeds the cap. -/
theorem progress_pairs_clamped (userProgress : List UserProgressRec)
    (quizAttempts : List QuizAttemptRec) (readingSessions : List ReadingSessionRec)
    (hw : ∀ s ∈ readingSessions, 0 ≤ s.words_read)
    (hd : ∀ s ∈ readingSessions, 0 ≤ s.session_duration_seconds) :
    (∀ a ∈ achievements userProgress quizAttempts readingSessions,
      ∀ pr m, a.progress = some pr → a.maxProgress = some m → 0 ≤ pr ∧ pr ≤ m) ∧
    ((achievements userProgress quizAttempts readingSessions).map
        (fun a => (a.id, a.progress, a.maxProgress))
      = [("first_story", none, none),
         ("story_master", some (min ((completedStories userProgress : ℚ)) 5), some 5),
         ("reading_champion", some (min ((completedStories userProgress : ℚ)) 10), some 10),
         ("word_explorer", some (min ((totalWordsRead readingSessions : ℚ)) 100), some 100),
         ("word_collector", some (min ((totalWordsRead readingSessions : ℚ)) 500), some 500),
         ("word_master", some (min ((totalWordsRead readingSessions : ℚ)) 1000), some 1000),
         ("quick_reader", some (min ((totalReadingTime readingSessions : ℚ)) 1800), some 1800),
         ("dedicated_reader", some (min ((totalReadingTime readingSessions : ℚ)) 7200), some 7200),
         ("quiz_rookie", none, none),
         ("quiz_expert", none, none),
         ("perfect_score", none, none),
         ("quiz_master", some (min ((perfectQuizzes quizAttempts : ℚ)) 3), some 3),
         ("getting_started", none, none),
         ("level_up_ready", none, none)]) := by
  have hW : (0 : ℤ) ≤ totalWordsRead readingSessions := by
    rw [totalWordsRead_eq_sum]
    apply List.sum_nonneg
    intro x hx
    obtain ⟨s, hs, rfl⟩ := List.mem_map.mp hx
    exact hw s hs
  have hT : (0 : ℤ) ≤ totalReadingTime readingSessions := by
    rw [totalReadingTime_eq_sum]
    apply List.sum_nonneg
    intro x hx
    obtain ⟨s, hs, rfl⟩ := List.mem_map.mp hx
    exact hd s hs
  have hmap : (achievements userProgress quizAttempts readingSessions).map
      (fun a => (a.id, a.progress, a.maxProgress))
      = [("first_story", none, none),
         ("story_master", some (min ((completedStories userProgress : ℚ)) 5), some 5),
         ("reading_champion", some (min ((completedStories userProgress : ℚ)) 10), some 10),
         ("word_explorer", some (min ((totalWordsRead readingSessions : ℚ)) 100), some 100),
         ("word_collector", some (min ((totalWordsRead readingSessions : ℚ)) 500), some 500),
         ("word_master", some (min ((totalWordsRead readingSessions : ℚ)) 1000), some 1000),
         ("quick_reader", some (min ((totalReadingTime readingSessions : ℚ)) 1800), some 1800),
         ("dedicated_reader", some (min ((totalReadingTime readingSessions : ℚ)) 7200), some 7200),
         ("quiz_rookie", none, none),
         ("quiz_expert", none, none),
         ("perfect_score", none, none),
         ("quiz_master", some (min ((perfectQuizzes quizAttempts : ℚ)) 3), some 3),
         ("getting_started", none, none),
         ("level_up_ready", none, none)] := rfl
  refine ⟨?_, hmap⟩
  intro a ha pr m hp hm
  have hmem := List.mem_map_of_mem (fun a => (a.id, a.progress, a.maxProgress)) ha
  rw [hmap] at hmem
  simp only [List.mem_cons, List.not_mem_nil, or_false, Prod.mk.injEq] at hmem
  rcases hmem with ⟨-,h2,h3⟩|⟨-,h2,h3⟩|⟨-,h2,h3⟩|⟨-,h2,h3⟩|⟨-,h2,h3⟩|⟨-,h2,h3⟩|⟨-,h2,h3⟩|⟨-,h2,h3⟩|⟨-,h2,h3⟩|⟨-,h2,h3⟩|⟨-,h2,h3⟩|⟨-,h2,h3⟩|⟨-,h2,h3⟩|⟨-,h2,h3⟩ <;>
    rw [h2] at hp <;> rw [h3] at hm <;>
    first
      | exact Option.noConfusion hp
      | (obtain rfl := Option.some.inj hp
         obtain rfl := Option.some.inj hm
         refine ⟨le_min ?_ (by norm_num), min_le_right _ _⟩
         first
           | exact Nat.cast_nonneg _
           | exact_mod_cast hW
           | exact_mod_cast hT)

/-- Witness for `progress_pairs_clamped`: the `word_explorer` pair on one
150-word session is clamped into the interval from 0 to its cap 100. -/
theorem progress_pairs_clamped_witness :
    0 ≤ min ((totalWordsRead sessionOne : ℚ)) 100 ∧
    min ((totalWordsRead sessionOne : ℚ)) 100 ≤ 100 :=
  (progress_pairs_clamped [] [] sessionOne (by decide) (by decide)).1
    { id := "word_explorer", title := "Word Explorer",
      description := "Read 100 words", emoji := "🔤",
      unlocked := decide (100 ≤ totalWordsRead sessionOne),
      progress := some (min ((totalWordsRead sessionOne : ℚ)) 100),
      maxProgress := some 100,
      category := .reading }
    (List.mem_cons_of_mem _ (List.mem_cons_of_mem _ (List.mem_cons_of_mem _
      (List.mem_cons_self _ _))))
    _ _ rfl rfl

/-- C10: an achievement rule carrying a progress/max pair is unlocked exactly
when its reported progress equals its maximum: a partially filled bar is never
unlocked and a full bar is never locked. -/
theorem unlocked_iff_progress_full (userProgress : List UserProgressRec)
    (quizAttempts : List QuizAttemptRec) (readingSessions : List ReadingSessionRec) :
    ∀ a ∈ achievements userProgress quizAttempts readingSessions,
      ∀ pr m, a.progress = some pr → a.maxProgress = some m →
        (a.unlocked = true ↔ pr = m) := by
  intro a ha pr m hp hm
  have hmem := List.mem_map_of_mem (fun a => (a.unlocked, a.progress, a.maxProgress)) ha
  have hmap : (achievements userProgress quizAttempts readingSessions).map
      (fun a => (a.unlocked, a.progress, a.maxProgress))
      = [(decide (1 ≤ completedStories userProgress), none, none),
         (decide (5 ≤ completedStories userProgress),
           some (min ((completedStories userProgress : ℚ)) 5), some 5),
         (decide (10 ≤ completedStories userProgress),
           some (min ((completedStories userProgress : ℚ)) 10), some 10),
         (decide (100 ≤ totalWordsRead readingSessions),
           some (min ((totalWordsRead readingSessions : ℚ)) 100), some 100),
         (decide (500 ≤ totalWordsRead readingSessions),
           some (min ((totalWordsRead readingSessions : ℚ)) 500), some 500),
         (decide (1000 ≤ totalWordsRead readingSessions),
           some (min ((totalWordsRead readingSessions : ℚ)) 1000), some 1000),
         (decide (1800 ≤ totalReadingTime readingSessions),
           some (min ((totalReadingTime readingSessions : ℚ)) 1800), some 1800),
         (decide (7200 ≤ totalReadingTime readingSessions),
           some (min ((totalReadingTime readingSessions : ℚ)) 7200), some 7200),
         (decide (1 ≤ quizAttempts.length), none, none),
         (decide (80 ≤ averageQuizScore quizAttempts), none, none),
         (decide (1 ≤ perfectQuizzes quizAttempts), none, none),
         (decide (3 ≤ perfectQuizzes quizAttempts),
           some (min ((perfectQuizzes quizAttempts : ℚ)) 3), some 3),
         (decide (1 ≤ readingSessions.length), none, none),
         (decide (8 ≤ completedStories userProgress) &&
            decide (75 ≤ averageQuizScore quizAttempts), none, none)] := rfl
  rw [hmap] at hmem
  simp only [List.mem_cons, List.not_mem_nil, or_false, Prod.mk.injEq] at hmem
  rcases hmem with ⟨h1,h2,h3⟩|⟨h1,h2,h3⟩|⟨h1,h2,h3⟩|⟨h1,h2,h3⟩|⟨h1,h2,h3⟩|⟨h1,h2,h3⟩|⟨h1,h2,h3⟩|⟨h1,h2,h3⟩|⟨h1,h2,h3⟩|⟨h1,h2,h3⟩|⟨h1,h2,h3⟩|⟨h1,h2,h3⟩|⟨h1,h2,h3⟩|⟨h1,h2,h3⟩ <;>
    rw [h2] at hp <;> rw [h3] at hm <;>
    first
      | exact Option.noConfusion hp
      | (obtain rfl := Option.some.inj hp
         obtain rfl := Option.some.inj hm
         rw [h1, decide_eq_true_eq, min_eq_right_iff]
         constructor <;> intro h <;> exact_mod_cast h)

/-- Witness for `unlocked_iff_progress_full`: with five completed rows the
`story_master` rule is unlocked, so its clamped progress equals its cap 5. -/
theorem unlocked_iff_progress_full_witness :
    min ((completedStories progressFive : ℚ)) 5 = 5 :=
  (unlocked_iff_progress_full progressFive [] []
    { id := "story_master", title := "Story Master",
      description := "Complete 5 stories", emoji := "📚",
      unlocked := decide (5 ≤ completedStories progressFive),
      progress := some (min ((completedStories progressFive : ℚ)) 5),
      maxProgress := some 5,
      category := .reading }
    (List.mem_cons_of_mem _ (List.mem_cons_self _ _))
    _ _ rfl rfl).mp rfl

/-- C5: the displayed list is a permutation of the evaluated catalog that is
pairwise ordered by the comparator (so every unlocked rule precedes every
locked rule, and within an unlocked-status group categories appear in
lexicographic name order), and any two catalog entries with identical sort
keys — same unlocked status and same category — keep their catalog order in
the output (stability). The model is a pure function, so equal inputs always
produce the identical order. -/
theorem display_sort_spec (userProgress : List UserProgressRec)
    (quizAttempts : List QuizAttemptRec) (readingSessions : List ReadingSessionRec) :
    (sortedAchievements userProgress quizAttempts readingSessions).Perm
      (achievements userProgress quizAttempts readingSessions) ∧
    (sortedAchievements userProgress quizAttempts readingSessions).Pairwise
      (fun a b => achLE a b = true) ∧
    (sortedAchievements userProgress quizAttempts readingSessions).Pairwise
      (fun a b => b.unlocked = true → a.unlocked = true) ∧
    (∀ a b, [a, b].Sublist (achievements userProgress quizAttempts readingSessions) →
      achKey a = achKey b →
      [a, b].Sublist (sortedAchievements userProgress quizAttempts readingSessions)) := by
  refine ⟨List.mergeSort_perm _ _, ?_, ?_, ?_⟩
  · exact List.sorted_mergeSort achLE_trans achLE_total _
  · apply List.Pairwise.imp ?_ (List.sorted_mergeSort achLE_trans achLE_total _)
    intro a b hab hbu
    cases hau : a.unlocked
    · rw [achLE, hau, hbu] at hab
      simp at hab
    · rfl
  · intro a b hsub hkey
    exact List.pair_sublist_mergeSort achLE_trans achLE_total (achKey_eq_achLE hkey) hsub

/-- Witness for `display_sort_spec`: on all-empty inputs `first_story` and
`story_master` share a sort key (both locked, both category reading), so they
keep their catalog order in the sorted output. -/
theorem display_sort_spec_witness :
    [firstStoryLocked, storyMasterLocked].Sublist (sortedAchievements [] [] []) :=
  (display_sort_spec [] [] []).2.2.2 firstStoryLocked storyMasterLocked
    (List.Sublist.cons₂ _ (List.Sublist.cons₂ _ (List.nil_sublist _))) rfl

end ReadingAdventures
